import Mathlib

/-!
Shallow embedding of the recommendation engine of
`Backend/app/services/recommendation_engine.py` together with the data model of
`Backend/app/models/schemas.py`.

Conventions of the embedding:
* Python strings are Lean `String`; `str.lower()` is modelled on the ASCII
  letters (the catalog and profile texts are ASCII), `x in y` is the substring
  test, `str.strip()` removes leading/trailing whitespace, and
  `s.split(',')` is `splitComma` (in particular `"".split(',') == ['']`).
* pandas data frames are Lean lists of records in row order; the per-column
  `apply` calls of `_score_internships` become per-row field computations.
* Python floats are modelled as exact rationals `ℚ`; `round(x, 1)` is exact
  half-to-even rounding to one decimal (`round1`).
* The fitted TF-IDF vectorizer plus the catalog matrix
  (`self.vectorizer` / `self.skills_vectors`, both produced by scikit-learn,
  an external collaborator of the repository) are modelled as the engine
  state field `simOf`: a function from the query text
  (`' '.join(skills) + ' ' + field_of_study`, exactly the text built in
  `get_recommendations`) to the list of cosine-similarity scores, one per
  catalog row in catalog order, which is how `cosine_similarity(user_vector,
  self.skills_vectors).flatten()` is consumed by the engine.
* `DataFrame.sort_values('final_score', ascending=False)` keeps pandas'
  default `kind='quicksort'`.  The embedding transcribes pandas `nargsort`
  for a single key with `ascending=False` and no NaNs (reverse the values
  and the positions, argsort, take, reverse the indexer) over numpy's
  classic scalar introsort `aquicksort_` from `npysort` (median-of-3
  quicksort with `SMALL_QUICKSORT = 15`, an insertion-sort final pass, and
  an `aheapsort_` fallback under a global `2 * msb(n)` depth limit).  This
  is numpy's reference scalar path; recent numpy builds may instead
  dispatch argsort of wide numeric dtypes to vectorized SIMD quicksorts
  whose tie permutation differs again by version and CPU — under
  `kind='quicksort'` the order of equal keys is implementation-defined in
  every case (only `kind='stable'`/`'mergesort'` are documented stable).
  Below the small-array threshold the reference path is a plain insertion
  sort and hence stable; from 17 rows on the partition step swaps tied
  entries.
* Raised Python exceptions become `Except.error`.
-/

/-- Education level enum of `schemas.py` (`EducationLevel`). -/
inductive EducationLevel where
  | high_school
  | diploma
  | undergraduate
  | graduate
  | postgraduate
deriving DecidableEq

/-- One catalog row of `internships.csv` after the normalisation in
`load_data`: every string column is non-null (NaNs replaced by the documented
defaults), `duration_months` is an integer, `stipend` stays optional.
`required_skills` is kept as the raw comma-delimited cell, exactly as the
engine stores and later re-splits it. -/
structure Posting where
  id : String
  title : String
  company : String
  sector : String
  location : String
  duration_months : Int
  stipend : Option Int
  description : String
  required_skills : String
  education_requirement : String
  application_deadline : Option String
deriving DecidableEq

/-- `UserProfile` of `schemas.py`; `experience_years` is validated to 0..10,
hence a `Nat`. -/
structure UserProfile where
  name : String
  education_level : EducationLevel
  field_of_study : String
  skills : List String
  preferred_sectors : List String
  preferred_location : String
  experience_years : Nat
deriving DecidableEq

/-- Engine state (`RecommendationEngine.__init__` plus `load_data`):
the catalog rows, the `is_loaded` flag, and the fitted similarity index
(`vectorizer` + `skills_vectors`), modelled as the function taking the user
query text to the per-catalog-row cosine-similarity vector. -/
structure Engine where
  internships_df : List Posting
  is_loaded : Bool
  simOf : String → List ℚ

/-- ASCII model of Python `str.lower()` on one character. -/
def lowChar (c : Char) : Char :=
  if 'A' ≤ c ∧ c ≤ 'Z' then Char.ofNat (c.toNat + 32) else c

/-- ASCII model of Python `str.lower()`. -/
def lowStr (s : String) : String := String.mk (s.toList.map lowChar)

/-- Whitespace characters removed by Python `str.strip()`. -/
def isWS (c : Char) : Bool := c == ' ' || c == '\t' || c == '\n' || c == '\r'

/-- Python `str.strip()`. -/
def stripStr (s : String) : String :=
  String.mk (((s.toList.dropWhile isWS).reverse.dropWhile isWS).reverse)

/-- Does the needle occur at the head of the haystack? -/
def leadsWith : List Char → List Char → Bool
  | [], _ => true
  | _ :: _, [] => false
  | a :: as, b :: bs => a == b && leadsWith as bs

/-- Substring occurrence on character lists. -/
def hasSeg (nd : List Char) : List Char → Bool
  | [] => leadsWith nd []
  | c :: cs => leadsWith nd (c :: cs) || hasSeg nd cs

/-- Python `nd in hay` (substring containment). -/
def strIn (nd hay : String) : Bool := hasSeg nd.toList hay.toList

/-- Python `s.split(',')` on character lists; always returns at least one
piece (`"".split(',') == ['']`). -/
def splitCommaCh : List Char → List (List Char)
  | [] => [[]]
  | c :: cs =>
    let rest := splitCommaCh cs
    if c == ',' then [] :: rest
    else
      match rest with
      | [] => [[c]]
      | t :: ts => (c :: t) :: ts

/-- Python `s.split(',')`. -/
def splitComma (s : String) : List String := (splitCommaCh s.toList).map String.mk

/-- The `education_mapping` dict of `_apply_filters`. -/
def educationMapping : EducationLevel → List String
  | .high_school => ["High School", "Diploma", "Undergraduate", "Graduate", "Postgraduate"]
  | .diploma => ["Diploma", "Undergraduate", "Graduate", "Postgraduate"]
  | .undergraduate => ["Undergraduate", "Graduate", "Postgraduate"]
  | .graduate => ["Graduate", "Postgraduate"]
  | .postgraduate => ["Postgraduate"]

/-- The education-compatibility test of `_apply_filters`:
`education_requirement.str.contains('|'.join(allowed_education), case=False)`,
i.e. some allowed level name occurs case-insensitively as a substring (the
level names contain no regex metacharacters). -/
def eduKeep (p : UserProfile) (post : Posting) : Bool :=
  (educationMapping p.education_level).any
    (fun tok => strIn (lowStr tok) (lowStr post.education_requirement))

/-- `_apply_filters`: apply the education filter (skipped only if the allowed
list were empty, mirroring `if allowed_education:`), then fall back to the
whole catalog when nothing survived. -/
def applyFilters (df : List Posting) (p : UserProfile) : List Posting :=
  let allowed := educationMapping p.education_level
  let filtered := if allowed.isEmpty then df else df.filter (eduKeep p)
  if filtered.length = 0 then df else filtered

/-- `_calculate_skills_match` (the `pd.isna` guard is unreachable after
`load_data`, which replaces missing `required_skills` by `''`). -/
def calcSkillsMatch (required_skills : String) (user_skills : List String) : ℚ :=
  let required := (splitComma required_skills).map (fun s => lowStr (stripStr s))
  let user := user_skills.map (fun s => lowStr (stripStr s))
  let nMatch :=
    (required.filter (fun skill =>
      user.any (fun u => strIn skill u || strIn u skill))).length
  if required.isEmpty then 0 else ((nMatch : ℚ) / (required.length : ℚ)) * 20

/-- The `location_score` column of `_score_internships`. -/
def locationScore (p : UserProfile) (loc : String) : ℚ :=
  if strIn (lowStr p.preferred_location) (lowStr loc) then 20 else 0

/-- The `sector_score` column of `_score_internships`. -/
def sectorScore (p : UserProfile) (sec : String) : ℚ :=
  if p.preferred_sectors.any (fun s => strIn (lowStr s) (lowStr sec)) then 15 else 0

/-- `_calculate_experience_score`; the row argument is kept to mirror the
source signature even though the body never reads it. -/
def calcExperienceScore (row : Posting) (user_experience : Nat) : ℚ :=
  if user_experience = 0 then 5
  else if user_experience ≤ 2 then 3
  else 2

/-- One scored candidate: a catalog row plus the per-request score columns
added by `_score_internships`. -/
structure ScoredRow where
  posting : Posting
  similarity_score : ℚ
  location_score : ℚ
  sector_score : ℚ
  skills_match_score : ℚ
  experience_score : ℚ
  final_score : ℚ
deriving DecidableEq

/-- The per-row part of `_score_internships`: all five sub-scores and the
weighted `final_score`. -/
def scoreRow (p : UserProfile) (post : Posting) (sim : ℚ) : ScoredRow :=
  let ls := locationScore p post.location
  let ss := sectorScore p post.sector
  let sk := calcSkillsMatch post.required_skills p.skills
  let ex := calcExperienceScore post p.experience_years
  { posting := post
    similarity_score := sim
    location_score := ls
    sector_score := ss
    skills_match_score := sk
    experience_score := ex
    final_score := sim * 40 + sk * 25 + ls + ss + ex }

/-- Everything of `final_score` except the experience term; used to state
that the experience term is an additive constant per request. -/
def preExpScore (p : UserProfile) (post : Posting) (sim : ℚ) : ℚ :=
  sim * 40 + calcSkillsMatch post.required_skills p.skills * 25 +
    locationScore p post.location + sectorScore p post.sector

/-- The length-adjustment of the similarity vector in `_score_internships`:
truncate when at least as long as the candidate frame
(`similarity_scores[:len(scored_df)]`), otherwise zero-pad
(`padded_scores = np.zeros(...)`). -/
def attachSim (df : List Posting) (sims : List ℚ) : List ℚ :=
  if df.length ≤ sims.length then sims.take df.length
  else sims ++ List.replicate (df.length - sims.length) (0 : ℚ)

/-- The scored frame of `_score_internships` before the final sort:
candidate `j` is paired with entry `j` of the adjusted similarity vector. -/
def scoreRowsPre (df : List Posting) (p : UserProfile) (sims : List ℚ) : List ScoredRow :=
  (df.zip (attachSim df sims)).map (fun pr => scoreRow p pr.1 pr.2)

/-- Out-of-range default for indexer lookups (never hit: the argsort
indexer is a permutation of the row positions). -/
def dfltPosting : Posting :=
  { id := "", title := "", company := "", sector := "", location := ""
    duration_months := 0, stipend := none, description := ""
    required_skills := "", education_requirement := "", application_deadline := none }

/-- Out-of-range default scored row for indexer lookups (never hit). -/
def dfltScoredRow : ScoredRow :=
  { posting := dfltPosting, similarity_score := 0, location_score := 0
    sector_score := 0, skills_match_score := 0, experience_score := 0, final_score := 0 }

/-- `v[t[i]]`: the key of the index-array entry at position `i`
(numpy argsort kernels compare keys through the index array). -/
def vAt (v : Array ℚ) (t : Array Nat) (i : Nat) : ℚ := v.getD (t.getD i 0) 0

/-- numpy `INTP_SWAP` on the index array; out-of-range positions leave the
array unchanged. -/
def aswap (t : Array Nat) (i j : Nat) : Array Nat :=
  let vi := t.getD i 0
  let vj := t.getD j 0
  (t.setD i vj).setD j vi

/-- The shared sift-down loop of numpy `aheapsort_` (both the heapify and
the extraction phase): the heap is 1-based over the segment starting at
`pl`, `a[k] = t[pl + k - 1]`, and `tmp` is the key index being sifted.
Returns the final hole position `i`.  The first argument is loop fuel,
always ample at the call sites. -/
def npHeapSift (v : Array ℚ) (pl n tmp : Nat) :
    Nat → Array Nat → Nat → Nat → Array Nat × Nat
  | 0, t, i, _ => (t, i)
  | fuel+1, t, i, j =>
    if j ≤ n then
      let j2 := if j < n ∧ vAt v t (pl + j - 1) < vAt v t (pl + j) then j + 1 else j
      if v.getD tmp 0 < vAt v t (pl + j2 - 1) then
        npHeapSift v pl n tmp fuel
          (t.setD (pl + i - 1) (t.getD (pl + j2 - 1) 0)) j2 (j2 + j2)
      else (t, i)
    else (t, i)

/-- Heapify phase of numpy `aheapsort_`: `for (l = n >> 1; l > 0; --l)`. -/
def npHeapBuild (v : Array ℚ) (pl n : Nat) : Nat → Array Nat → Nat → Array Nat
  | 0, t, _ => t
  | fuel+1, t, l =>
    if 0 < l then
      let tmp := t.getD (pl + l - 1) 0
      let ti := npHeapSift v pl n tmp (n + 2) t l (l + l)
      npHeapBuild v pl n fuel (ti.1.setD (pl + ti.2 - 1) tmp) (l - 1)
    else t

/-- Extraction phase of numpy `aheapsort_`: `for (; n > 1;)`. -/
def npHeapExtract (v : Array ℚ) (pl : Nat) : Nat → Array Nat → Nat → Array Nat
  | 0, t, _ => t
  | fuel+1, t, n =>
    if 1 < n then
      let tmp := t.getD (pl + n - 1) 0
      let t2 := t.setD (pl + n - 1) (t.getD pl 0)
      let n2 := n - 1
      let ti := npHeapSift v pl n2 tmp (n2 + 2) t2 1 2
      npHeapExtract v pl fuel (ti.1.setD (pl + ti.2 - 1) tmp) n2
    else t

/-- numpy `aheapsort_(vv, pl, n)`: argsort-heapsort of the segment of
length `n` starting at `pl` (the introsort depth-limit fallback). -/
def npAHeapsort (v : Array ℚ) (t : Array Nat) (pl n : Nat) : Array Nat :=
  npHeapExtract v pl (n + 1) (npHeapBuild v pl n (n / 2 + 1) t (n / 2)) n

/-- `do ++pi; while (LT(v[*pi], vp))` of the numpy partition scan, entered
with the already incremented position. -/
def npScanLo (v : Array ℚ) (t : Array Nat) (vp : ℚ) : Nat → Nat → Nat
  | 0, i => i
  | fuel+1, i => if vAt v t i < vp then npScanLo v t vp fuel (i + 1) else i

/-- `do --pj; while (LT(vp, v[*pj]))` of the numpy partition scan, entered
with the already decremented position. -/
def npScanHi (v : Array ℚ) (t : Array Nat) (vp : ℚ) : Nat → Nat → Nat
  | 0, j => j
  | fuel+1, j => if vp < vAt v t j then npScanHi v t vp fuel (j - 1) else j

/-- The Hoare scan-and-swap loop of the numpy partition; returns the array
and the final `pi`.  Swapping equal-key entries here is what destroys
stability. -/
def npPartLoop (v : Array ℚ) (vp : ℚ) : Nat → Array Nat → Nat → Nat → Array Nat × Nat
  | 0, t, i, _ => (t, i)
  | fuel+1, t, i, j =>
    let i2 := npScanLo v t vp t.size (i + 1)
    let j2 := npScanHi v t vp t.size (j - 1)
    if j2 ≤ i2 then (t, i2)
    else npPartLoop v vp fuel (aswap t i2 j2) i2 j2

/-- One full numpy `aquicksort_` partition of the segment `[pl, pr]`:
median-of-3 pivot selection (with its conditional swaps), pivot parked at
`pr - 1`, Hoare scan, and the final pivot swap to position `pi`. -/
def npPartition (v : Array ℚ) (t : Array Nat) (pl pr : Nat) : Array Nat × Nat :=
  let pm := pl + ((pr - pl) >>> 1)
  let t1 := if vAt v t pm < vAt v t pl then aswap t pm pl else t
  let t2 := if vAt v t1 pr < vAt v t1 pm then aswap t1 pr pm else t1
  let t3 := if vAt v t2 pm < vAt v t2 pl then aswap t2 pm pl else t2
  let vp := vAt v t3 pm
  let t4 := aswap t3 pm (pr - 1)
  let ti := npPartLoop v vp (pr - pl + 2) t4 pl (pr - 1)
  (aswap ti.1 ti.2 (pr - 1), ti.2)

/-- The shift loop of the numpy insertion sort:
`while (pj > pl && LT(vp, v[*pk])) *pj-- = *pk--;`. -/
def npInsShift (v : Array ℚ) (vp : ℚ) (pl : Nat) : Nat → Array Nat → Nat → Array Nat × Nat
  | 0, t, j => (t, j)
  | fuel+1, t, j =>
    if pl < j ∧ vp < vAt v t (j - 1) then
      npInsShift v vp pl fuel (t.setD j (t.getD (j - 1) 0)) (j - 1)
    else (t, j)

/-- The insertion-sort final pass of numpy `aquicksort_` over `[pl, pr]`
(the whole sort for segments of at most `SMALL_QUICKSORT + 1 = 16`
entries — the only regime in which the sort is stable). -/
def npInsSort (v : Array ℚ) (pl pr : Nat) : Nat → Array Nat → Nat → Array Nat
  | 0, t, _ => t
  | fuel+1, t, i =>
    if i ≤ pr then
      let vi := t.getD i 0
      let vp := v.getD vi 0
      let tj := npInsShift v vp pl (i + 1) t i
      npInsSort v pl pr fuel (tj.1.setD tj.2 vi) (i + 1)
    else t

/-- The driver loop of numpy `aquicksort_`: segments longer than
`SMALL_QUICKSORT = 15` are partitioned under the global depth budget
(heapsort once it is exhausted, `if (depth_limit-- < 0)`), the larger part
is pushed on the explicit stack and the smaller continued; short segments
get the insertion-sort pass, then the stack is popped. -/
def npIntroLoop (v : Array ℚ) :
    Nat → Array Nat → List (Nat × Nat) → Nat → Nat → Int → Array Nat
  | 0, t, _, _, _, _ => t
  | fuel+1, t, stack, pl, pr, depth =>
    if 15 < pr - pl then
      if depth < 0 then
        let t2 := npAHeapsort v t pl (pr - pl + 1)
        match stack with
        | [] => t2
        | (l2, r2) :: rest => npIntroLoop v fuel t2 rest l2 r2 (depth - 1)
      else
        let ti := npPartition v t pl pr
        if ti.2 - pl < pr - ti.2 then
          npIntroLoop v fuel ti.1 ((ti.2 + 1, pr) :: stack) pl (ti.2 - 1) (depth - 1)
        else
          npIntroLoop v fuel ti.1 ((pl, ti.2 - 1) :: stack) (ti.2 + 1) pr (depth - 1)
    else
      let t2 := npInsSort v pl pr (pr + 2 - pl) t (pl + 1)
      match stack with
      | [] => t2
      | (l2, r2) :: rest => npIntroLoop v fuel t2 rest l2 r2 depth
  termination_by fuel => fuel

/-- numpy `argsort(kind='quicksort')` on one key column: the classic scalar
`aquicksort_` with depth budget `npy_get_msb(n) * 2`.  The fuel bounds the
driver's iteration count (at most one partition push and one pop per
segment, far below `2n + 8`). -/
def npArgsortQuick (vals : List ℚ) : List Nat :=
  let n := vals.length
  let v := vals.toArray
  let t := (List.range n).toArray
  (npIntroLoop v (2 * n + 8) t [] 0 (n - 1) ((2 * Nat.log2 n : Nat) : Int)).toList

/-- pandas `nargsort(values, kind='quicksort', ascending=False)` for a
single key without NaNs, as `DataFrame.sort_values` uses it: reverse the
values and the positions, argsort the reversed values, take, and reverse
the resulting indexer. -/
def pdSortIndexerDesc (vals : List ℚ) : List Nat :=
  let n := vals.length
  let revIdx := (List.range n).reverse
  let P := npArgsortQuick vals.reverse
  (P.map (fun i => revIdx.getD i 0)).reverse

/-- `scored_df.sort_values('final_score', ascending=False)`: reorder the
rows by the pandas descending indexer over the `final_score` column. -/
def sortValuesFinalDesc (rows : List ScoredRow) : List ScoredRow :=
  (pdSortIndexerDesc (rows.map (fun r => r.final_score))).map
    (fun i => rows.getD i dfltScoredRow)

/-- `_score_internships`: attach similarity scores, compute the score
columns, and sort by `final_score` descending with pandas' default
`kind='quicksort'` (see the module docstring). -/
def scoreInternships (df : List Posting) (p : UserProfile) (sims : List ℚ) : List ScoredRow :=
  sortValuesFinalDesc (scoreRowsPre df p sims)

/-- The query text `' '.join(user_profile.skills) + ' ' + field_of_study`
built in `get_recommendations`. -/
def userSkillsText (p : UserProfile) : String :=
  String.intercalate " " p.skills ++ " " ++ p.field_of_study

/-- The scored, sorted candidate set produced inside `get_recommendations`
for one request. -/
def scoredRows (e : Engine) (p : UserProfile) : List ScoredRow :=
  scoreInternships (applyFilters e.internships_df p) p (e.simOf (userSkillsText p))

/-- Exact half-to-even rounding to an integer (Python `round` semantics on
the modelled rationals). -/
def halfEvenZ (q : ℚ) : ℤ :=
  if q - (⌊q⌋ : ℚ) < 1/2 then ⌊q⌋
  else if 1/2 < q - (⌊q⌋ : ℚ) then ⌊q⌋ + 1
  else if ⌊q⌋ % 2 = 0 then ⌊q⌋ else ⌊q⌋ + 1

/-- Python `round(x, 1)`. -/
def round1 (q : ℚ) : ℚ := ((halfEvenZ (q * 10) : ℤ) : ℚ) / 10

/-- The `match_reasons` generation of `_create_recommendation_object`,
in the fixed source order with the `General compatibility` fallback. -/
def matchReasons (r : ScoredRow) : List String :=
  let rs :=
    (if (10 : ℚ) < r.skills_match_score then ["Strong skills alignment"] else []) ++
    (if (0 : ℚ) < r.location_score then ["Preferred location match"] else []) ++
    (if (0 : ℚ) < r.sector_score then ["Sector preference aligned"] else []) ++
    (if (3/10 : ℚ) < r.similarity_score then ["Content similarity high"] else [])
  if rs.isEmpty then ["General compatibility"] else rs

/-- `safe_list` of `_create_recommendation_object`: comma-split, strip each
piece, drop empty pieces. -/
def safeList (v : String) : List String :=
  ((splitComma v).map stripStr).filter (fun s => !s.isEmpty)

/-- Public response record (`InternshipRecommendation` of `schemas.py`). -/
structure InternshipRecommendation where
  id : String
  title : String
  company : String
  sector : String
  location : String
  duration_months : Int
  stipend : Option Int
  description : String
  required_skills : List String
  education_requirement : String
  application_deadline : Option String
  match_score : ℚ
  match_reasons : List String
deriving DecidableEq

/-- `_create_recommendation_object`: string fields go through `safe_str`
(strip; the NaN defaults are unreachable after `load_data`), the skills cell
through `safe_list`, and the public score is
`round(max(0, min(100, min(100, final_score / 100 * 100))), 1)`.
The profile argument is kept to mirror the source signature (unused there
as well). -/
def createRecommendationObject (r : ScoredRow) (p : UserProfile) : InternshipRecommendation :=
  { id := stripStr r.posting.id
    title := stripStr r.posting.title
    company := stripStr r.posting.company
    sector := stripStr r.posting.sector
    location := stripStr r.posting.location
    duration_months := r.posting.duration_months
    stipend := r.posting.stipend
    description := stripStr r.posting.description
    required_skills := safeList r.posting.required_skills
    education_requirement := stripStr r.posting.education_requirement
    application_deadline := r.posting.application_deadline.map stripStr
    match_score := round1 (max 0 (min 100 (min 100 r.final_score)))
    match_reasons := matchReasons r }

/-- The successful branch of `get_recommendations`: score, take the top 5,
build response objects. -/
def recommendOk (e : Engine) (p : UserProfile) : List InternshipRecommendation :=
  ((scoredRows e p).take 5).map (fun r => createRecommendationObject r p)

/-- `get_recommendations`: raises `Exception("Data not loaded")` when the
catalog is not loaded, otherwise returns the top-5 response list. -/
def getRecommendations (e : Engine) (p : UserProfile) :
    Except String (List InternshipRecommendation) :=
  if e.is_loaded then Except.ok (recommendOk e p) else Except.error "Data not loaded"

/-- One request viewed as a state transformer: the method reads the engine
fields but assigns none of them (it works on data-frame copies), so the
post-state is the pre-state. -/
def getRecommendationsRun (e : Engine) (p : UserProfile) :
    Except String (List InternshipRecommendation) × Engine :=
  (getRecommendations e p, e)

/-- `is_data_loaded`. -/
def is_data_loaded (e : Engine) : Bool := e.is_loaded

/-- `get_total_internships`: plain `0` when not loaded. -/
def get_total_internships (e : Engine) : Nat :=
  if e.is_loaded then e.internships_df.length else 0

/-- Ascending insertion of a string into a sorted list (Python `sorted` on
code-point order). -/
def insertStr (s : String) : List String → List String
  | [] => [s]
  | x :: xs => if s ≤ x then s :: x :: xs else x :: insertStr s xs

/-- Python `sorted` on strings. -/
def sortStrs : List String → List String
  | [] => []
  | x :: xs => insertStr x (sortStrs xs)

/-- pandas `Series.unique()`: deduplicate keeping first occurrences. -/
def uniqueFirst (l : List String) : List String :=
  l.foldl (fun acc x => if x ∈ acc then acc else acc ++ [x]) []

/-- `get_available_sectors`: plain `[]` when not loaded, else the sorted
deduplicated sector column. -/
def get_available_sectors (e : Engine) : List String :=
  if e.is_loaded then sortStrs (uniqueFirst (e.internships_df.map (fun x => x.sector))) else []

/-- `get_available_locations`: plain `[]` when not loaded. -/
def get_available_locations (e : Engine) : List String :=
  if e.is_loaded then sortStrs (uniqueFirst (e.internships_df.map (fun x => x.location))) else []

/-- The five education levels in ascending order. -/
def levelList : List EducationLevel :=
  [.high_school, .diploma, .undergraduate, .graduate, .postgraduate]

/-- Rank of a level in the ordering high_school < diploma < undergraduate <
graduate < postgraduate. -/
def levelRank : EducationLevel → Nat
  | .high_school => 0
  | .diploma => 1
  | .undergraduate => 2
  | .graduate => 3
  | .postgraduate => 4

/-- Display name of a level as used in the catalog requirement texts. -/
def levelName : EducationLevel → String
  | .high_school => "High School"
  | .diploma => "Diploma"
  | .undergraduate => "Undergraduate"
  | .graduate => "Graduate"
  | .postgraduate => "Postgraduate"

/-- Concrete catalog row whose requirement text matches no education level
name (used to exercise the filter). -/
def exPostA : Posting where
  id := "A"
  title := "tA"
  company := "cA"
  sector := "Tech"
  location := "Delhi"
  duration_months := 3
  stipend := none
  description := "dA"
  required_skills := "java"
  education_requirement := "None"
  application_deadline := none

/-- Concrete catalog row requiring `Undergraduate` and the skill `python`. -/
def exPostB : Posting where
  id := "B"
  title := "tB"
  company := "cB"
  sector := "Tech"
  location := "Mumbai"
  duration_months := 3
  stipend := none
  description := "dB"
  required_skills := "python"
  education_requirement := "Undergraduate"
  application_deadline := none

/-- Concrete undergraduate profile with the single skill `python`. -/
def exProfile : UserProfile where
  name := "U"
  education_level := .undergraduate
  field_of_study := "cs"
  skills := ["python"]
  preferred_sectors := ["nomatch"]
  preferred_location := "nowhere"
  experience_years := 0

/-- `exProfile` at postgraduate level. -/
def exProfilePG : UserProfile :=
  { exProfile with education_level := .postgraduate }

/-- `exProfile` with the skill `python` added a second time (an exact match
of `exPostB`'s required skill `python`). -/
def exProfileMore : UserProfile :=
  { exProfile with skills := ["python", "python"] }

/-- Loaded two-row engine whose similarity vector is `[1/2, 1/4]` (row `A`
scores `1/2`, row `B` scores `1/4`). -/
def c1Engine : Engine where
  internships_df := [exPostA, exPostB]
  is_loaded := true
  simOf := fun _ => [1/2, 1/4]

/-- Seventeen copies of `exPostB` distinguished only by their id
(`P0` .. `P16`): every one of them scores identically for any profile, so
all final scores tie.  Seventeen rows is the first size at which the
embedded reference sort leaves the pure insertion-sort regime
(`pr - pl = 16 > SMALL_QUICKSORT`). -/
def c2TieCatalog : List Posting :=
  (List.range 17).map (fun i => { exPostB with id := "P" ++ toString i })

/-- Loaded engine over the tied 17-row catalog, all similarity scores 0. -/
def c2TieEngine : Engine where
  internships_df := c2TieCatalog
  is_loaded := true
  simOf := fun _ => List.replicate 17 0

/-- Loaded one-row engine whose similarity index answers `1/2` for the query
text of `exProfile` and `1/4` for any other query text (in particular for
the text of `exProfileMore`, which differs by the added skill). -/
def c6Engine : Engine where
  internships_df := [exPostB]
  is_loaded := true
  simOf := fun t => if t = "python cs" then [1/2] else [1/4]

/-- Loaded one-row engine with similarity `1/2`. -/
def c7Engine : Engine where
  internships_df := [exPostB]
  is_loaded := true
  simOf := fun _ => [1/2]

/-- The single recommendation object `c7Engine` produces for `exProfile`. -/
def c7Rec : InternshipRecommendation :=
  createRecommendationObject (scoreRow exProfile exPostB (1/2)) exProfile

/-- Engine with a non-empty catalog whose load flag is down (a failed or
not-yet-finished load). -/
def c8EngineNL : Engine where
  internships_df := [exPostB]
  is_loaded := false
  simOf := fun _ => []

/-- Loaded engine over an empty catalog. -/
def c8EngineLE : Engine where
  internships_df := []
  is_loaded := true
  simOf := fun _ => []

/-! Helper lemmas. -/

theorem educationMapping_isEmpty_false (L : EducationLevel) :
    (educationMapping L).isEmpty = false := by
  cases L <;> rfl

theorem applyFilters_eq_filter (df : List Posting) (p : UserProfile)
    (h : df.filter (eduKeep p) ≠ []) :
    applyFilters df p = df.filter (eduKeep p) := by
  show (if (if (educationMapping p.education_level).isEmpty then df
              else df.filter (eduKeep p)).length = 0 then df
        else _) = _
  rw [educationMapping_isEmpty_false p.education_level]
  simp only [Bool.false_eq_true, if_false]
  rw [if_neg]
  exact fun hl => h (List.length_eq_zero.mp hl)

theorem applyFilters_eq_self (df : List Posting) (p : UserProfile)
    (h : df.filter (eduKeep p) = []) :
    applyFilters df p = df := by
  show (if (if (educationMapping p.education_level).isEmpty then df
              else df.filter (eduKeep p)).length = 0 then df
        else _) = _
  rw [educationMapping_isEmpty_false p.education_level]
  simp only [Bool.false_eq_true, if_false]
  rw [h]
  rfl

theorem length_attachSim (df : List Posting) (sims : List ℚ) :
    (attachSim df sims).length = df.length := by
  unfold attachSim
  split
  · simp only [List.length_take]
    omega
  · simp only [List.length_append, List.length_replicate]
    omega

theorem attachSim_eq (df : List Posting) (sims : List ℚ) :
    attachSim df sims = (List.range df.length).map (fun j => sims.getD j 0) := by
  apply List.ext_getElem
  · simp [length_attachSim]
  · intro j h1 h2
    have hj : j < df.length := by simpa [length_attachSim] using h1
    simp only [List.getElem_map, List.getElem_range]
    unfold attachSim
    split
    · next hle =>
      have hjs : j < sims.length := lt_of_lt_of_le hj hle
      simp [List.getElem_take, List.getD_eq_getElem?_getD, List.getElem?_eq_getElem hjs]
    · next hgt =>
      by_cases hjs : j < sims.length
      · rw [List.getElem_append_left hjs]
        simp [List.getD_eq_getElem?_getD, List.getElem?_eq_getElem hjs]
      · have hjs' : sims.length ≤ j := le_of_not_lt hjs
        rw [List.getElem_append_right hjs']
        simp [List.getD_eq_getElem?_getD, List.getElem?_eq_none (le_of_not_lt hjs)]

theorem length_scoreRowsPre (df : List Posting) (p : UserProfile) (sims : List ℚ) :
    (scoreRowsPre df p sims).length = df.length := by
  simp [scoreRowsPre, List.length_zip, length_attachSim]

theorem scoreRowsPre_map_posting (df : List Posting) (p : UserProfile) (sims : List ℚ) :
    (scoreRowsPre df p sims).map (fun r => r.posting) = df := by
  unfold scoreRowsPre
  rw [List.map_map]
  have : ((fun r => r.posting) ∘ fun pr : Posting × ℚ => scoreRow p pr.1 pr.2) = Prod.fst := by
    funext pr
    rfl
  rw [this]
  exact List.map_fst_zip df _ (le_of_eq (length_attachSim df sims).symm)

theorem scoreRowsPre_map_similarity (df : List Posting) (p : UserProfile) (sims : List ℚ) :
    (scoreRowsPre df p sims).map (fun r => r.similarity_score)
      = (List.range df.length).map (fun j => sims.getD j 0) := by
  unfold scoreRowsPre
  rw [List.map_map]
  have : ((fun r => r.similarity_score) ∘ fun pr : Posting × ℚ => scoreRow p pr.1 pr.2)
      = Prod.snd := by
    funext pr
    rfl
  rw [this, List.map_snd_zip _ _ (le_of_eq (length_attachSim df sims)), attachSim_eq]

theorem le_halfEvenZ (q : ℚ) : ⌊q⌋ ≤ halfEvenZ q := by
  unfold halfEvenZ
  split_ifs <;> omega

theorem halfEvenZ_nonneg (q : ℚ) (h : 0 ≤ q) : 0 ≤ halfEvenZ q :=
  le_trans (Int.floor_nonneg.mpr h) (le_halfEvenZ q)

theorem halfEvenZ_le_int (q : ℚ) (n : ℤ) (h : q ≤ (n : ℚ)) : halfEvenZ q ≤ n := by
  have hfl : ⌊q⌋ ≤ n := by
    have := Int.floor_mono h
    simpa using this
  unfold halfEvenZ
  split_ifs with h1 h2 h3
  · exact hfl
  · have hlt : (⌊q⌋ : ℚ) < q := by linarith [not_lt.mp (by exact fun hc => absurd hc h1 : ¬ q - (⌊q⌋ : ℚ) < 1/2)]
    have : (⌊q⌋ : ℚ) < (n : ℚ) := lt_of_lt_of_le hlt h
    have : ⌊q⌋ < n := by exact_mod_cast this
    omega
  · exact hfl
  · have hge : ¬ q - (⌊q⌋ : ℚ) < 1/2 := h1
    have hlt : (⌊q⌋ : ℚ) < q := by
      have := not_lt.mp hge
      linarith
    have : (⌊q⌋ : ℚ) < (n : ℚ) := lt_of_lt_of_le hlt h
    have : ⌊q⌋ < n := by exact_mod_cast this
    omega

theorem round1_nonneg (q : ℚ) (h : 0 ≤ q) : 0 ≤ round1 q := by
  unfold round1
  have h0 : 0 ≤ halfEvenZ (q * 10) := halfEvenZ_nonneg _ (by linarith)
  have : (0 : ℚ) ≤ ((halfEvenZ (q * 10) : ℤ) : ℚ) := by exact_mod_cast h0
  linarith

theorem round1_le_hundred (q : ℚ) (h : q ≤ 100) : round1 q ≤ 100 := by
  unfold round1
  have h0 : halfEvenZ (q * 10) ≤ 1000 := halfEvenZ_le_int _ 1000 (by push_cast; linarith)
  have : ((halfEvenZ (q * 10) : ℤ) : ℚ) ≤ 1000 := by exact_mod_cast h0
  linarith

theorem matchScore_eq (r : ScoredRow) (p : UserProfile) :
    (createRecommendationObject r p).match_score = round1 (max 0 (min 100 r.final_score)) := by
  show round1 (max 0 (min 100 (min 100 r.final_score))) = _
  rw [← min_assoc, min_self]

theorem matchScore_bounds (r : ScoredRow) (p : UserProfile) :
    0 ≤ (createRecommendationObject r p).match_score
      ∧ (createRecommendationObject r p).match_score ≤ 100 := by
  rw [matchScore_eq]
  constructor
  · exact round1_nonneg _ (le_max_left _ _)
  · exact round1_le_hundred _ (max_le (by norm_num) (min_le_left _ _))

theorem calcSkillsMatch_le_append (req : String) (user more : List String) :
    calcSkillsMatch req user ≤ calcSkillsMatch req (user ++ more) := by
  simp only [calcSkillsMatch]
  set required := (splitComma req).map (fun s => lowStr (stripStr s)) with hreqdef
  by_cases hE : required.isEmpty
  · rw [if_pos hE, if_pos hE]
  · rw [if_neg hE, if_neg hE]
    have hpos : 0 < required.length := by
      cases hl : required with
      | nil => rw [hl] at hE; exact absurd rfl hE
      | cons a l => simp [hl]
    have hposQ : (0 : ℚ) < (required.length : ℚ) := by exact_mod_cast hpos
    have hsub :
        List.Sublist
          (required.filter (fun skill =>
            (user.map (fun s => lowStr (stripStr s))).any
              (fun u => strIn skill u || strIn u skill)))
          (required.filter (fun skill =>
            ((user ++ more).map (fun s => lowStr (stripStr s))).any
              (fun u => strIn skill u || strIn u skill))) := by
      apply List.monotone_filter_right
      intro a ha
      rw [List.map_append, List.any_append]
      simp only [ha, Bool.true_or]
    have hlen :
        ((required.filter (fun skill =>
            (user.map (fun s => lowStr (stripStr s))).any
              (fun u => strIn skill u || strIn u skill))).length : ℚ)
          ≤ ((required.filter (fun skill =>
            ((user ++ more).map (fun s => lowStr (stripStr s))).any
              (fun u => strIn skill u || strIn u skill))).length : ℚ) := by
      exact_mod_cast hsub.length_le
    gcongr

theorem scoreRow_final_eq (p : UserProfile) (post : Posting) (sim : ℚ) :
    (scoreRow p post sim).final_score
      = preExpScore p post sim + calcExperienceScore post p.experience_years := rfl

theorem scoreRow_skills_mono (p : UserProfile) (post : Posting) (sim : ℚ) (skill : String) :
    (scoreRow p post sim).final_score
      ≤ (scoreRow { p with skills := p.skills ++ [skill] } post sim).final_score := by
  have hsk := calcSkillsMatch_le_append post.required_skills p.skills [skill]
  have h25 := mul_le_mul_of_nonneg_right hsk (show (0:ℚ) ≤ 25 by norm_num)
  show sim * 40 + calcSkillsMatch post.required_skills p.skills * 25
      + locationScore p post.location + sectorScore p post.sector
      + calcExperienceScore post p.experience_years
    ≤ sim * 40 + calcSkillsMatch post.required_skills (p.skills ++ [skill]) * 25
      + locationScore p post.location + sectorScore p post.sector
      + calcExperienceScore post p.experience_years
  linarith

/-! Claim theorems. -/

/-- Claim C1 (amended): in `_score_internships` the surviving candidate at
position `j` receives entry `j` of the request-level similarity vector —
the vector is truncated to the candidate count when it is long enough
(`similarity_scores[:len(scored_df)]`) and silently zero-padded otherwise —
rather than necessarily the cosine similarity of that same candidate's own
catalog row; candidate order itself is preserved. -/
theorem c1_positional_similarity (df : List Posting) (p : UserProfile) (sims : List ℚ) :
    (scoreRowsPre df p sims).map (fun r => r.posting) = df
    ∧ (scoreRowsPre df p sims).map (fun r => r.similarity_score)
        = (List.range df.length).map (fun j => sims.getD j 0) :=
  ⟨scoreRowsPre_map_posting df p sims, scoreRowsPre_map_similarity df p sims⟩

set_option maxRecDepth 4000 in
/-- Claim C1 counterexample: on `c1Engine` (similarity vector `[1/2, 1/4]`
over catalog `[exPostA, exPostB]`) the education filter drops row 0, and the
surviving candidate `exPostB` — catalog row 1, whose own similarity entry is
`1/4` — is scored with similarity `1/2`, the entry of the dropped row 0: the
over-long similarity vector was silently truncated, not realigned. -/
theorem c1_misalignment_counterexample :
    applyFilters c1Engine.internships_df exProfile = [exPostB]
    ∧ (scoredRows c1Engine exProfile).map (fun r => r.posting) = [exPostB]
    ∧ (scoredRows c1Engine exProfile).map (fun r => r.similarity_score) = [1/2]
    ∧ (c1Engine.simOf (userSkillsText exProfile)).getD 1 0 = 1/4
    ∧ ((1 : ℚ)/2) ≠ ((1 : ℚ)/4) := by
  with_unfolding_all decide

set_option maxRecDepth 8000 in
/-- Claim C2 (code bug evaluation): on a 17-row catalog of postings that
are identical except for their ids — so that every candidate gets the same
final score 505 — the pipeline returns the tied candidates OUT of catalog
load order: `sort_values('final_score', ascending=False)` is called with
pandas' default `kind='quicksort'`, whose partition step swaps tied
entries once the candidate frame exceeds the insertion-sort threshold.
The evaluated order is that of numpy's reference scalar introsort; the
stability the claim and spec require (which would need
`kind='stable'`/`'mergesort'`) fails either way, since the default kind
leaves the order of equal keys implementation-defined. -/
theorem c2_unstable_tie_order :
    (applyFilters c2TieEngine.internships_df exProfile).map (fun post => post.id)
      = (List.range 17).map (fun i => "P" ++ toString i)
    ∧ ((scoredRows c2TieEngine exProfile).map (fun r => r.final_score)).all
        (fun q => decide (q = 505))
    ∧ (scoredRows c2TieEngine exProfile).map (fun r => r.posting.id)
        = ["P0", "P9", "P15", "P14", "P13", "P12", "P11", "P10", "P8", "P1",
           "P7", "P6", "P5", "P4", "P3", "P2", "P16"]
    ∧ (scoredRows c2TieEngine exProfile).map (fun r => r.posting.id)
        ≠ (applyFilters c2TieEngine.internships_df exProfile).map (fun post => post.id)
    ∧ (recommendOk c2TieEngine exProfile).map (fun r => r.id)
        = ["P0", "P9", "P15", "P14", "P13"] := by
  with_unfolding_all decide

/-- Claim C3 (code bug): for a posting whose `required_skills` cell is the
empty string — the representation `load_data` gives a posting with no
required skills (`fillna('')`) — `_calculate_skills_match` returns 20, not
0 as specified: `''.split(',')` is `['']`, the empty token is a substring of
every user skill, so the `else 0` guard of the source is unreachable. -/
theorem c3_empty_required_skills :
    calcSkillsMatch "" ["Python"] = 20 ∧ splitComma "" = [""] := by
  constructor
  · with_unfolding_all decide
  · rfl

/-- Claim C4: while the fallback is not engaged (some catalog row passes the
education test), `_apply_filters` keeps a posting exactly when some allowed
level name occurs case-insensitively in its requirement text, and the
allowed names for level `L` are precisely the names of the levels `≥ L` in
the order high_school < diploma < undergraduate < graduate < postgraduate
(so high_school allows all five names and postgraduate only its own). -/
theorem c4_education_filter (df : List Posting) (p : UserProfile) (post : Posting)
    (L : EducationLevel) (hmem : post ∈ df) (hne : df.filter (eduKeep p) ≠ []) :
    (post ∈ applyFilters df p ↔ eduKeep p post = true)
    ∧ educationMapping L
        = (levelList.filter (fun M => decide (levelRank L ≤ levelRank M))).map levelName := by
  constructor
  · rw [applyFilters_eq_filter df p hne]
    constructor
    · exact fun hm => (List.mem_filter.mp hm).2
    · exact fun hk => List.mem_filter.mpr ⟨hmem, hk⟩
  · cases L <;> rfl

/-- Claim C4 witness: undergraduate profile over `[exPostA, exPostB]`, with
the table instantiated at postgraduate. -/
theorem c4_education_filter_witness :
    (exPostB ∈ [exPostA, exPostB] ∧ [exPostA, exPostB].filter (eduKeep exProfile) ≠ [])
    ∧ ((exPostB ∈ applyFilters [exPostA, exPostB] exProfile ↔ eduKeep exProfile exPostB = true)
      ∧ educationMapping .postgraduate
          = (levelList.filter
              (fun M => decide (levelRank .postgraduate ≤ levelRank M))).map levelName) :=
  ⟨⟨by decide, by decide⟩,
    c4_education_filter [exPostA, exPostB] exProfile exPostB .postgraduate
      (by decide) (by decide)⟩

/-- Claim C5: if the education filter would leave nothing of a non-empty
catalog, `_apply_filters` returns the entire catalog in load order, so the
candidate set is never empty merely because of the education match. -/
theorem c5_education_fallback (df : List Posting) (p : UserProfile)
    (h1 : df ≠ []) (h2 : df.filter (eduKeep p) = []) :
    applyFilters df p = df ∧ applyFilters df p ≠ [] := by
  refine ⟨applyFilters_eq_self df p h2, ?_⟩
  rw [applyFilters_eq_self df p h2]
  exact h1

/-- Claim C5 witness: a postgraduate profile excludes the whole one-row
catalog `[exPostA]` (requirement text `None`), and the filter falls back to
the full catalog. -/
theorem c5_education_fallback_witness :
    ([exPostA] ≠ ([] : List Posting) ∧ [exPostA].filter (eduKeep exProfilePG) = [])
    ∧ (applyFilters [exPostA] exProfilePG = [exPostA]
      ∧ applyFilters [exPostA] exProfilePG ≠ []) :=
  ⟨⟨by decide, by decide⟩, c5_education_fallback [exPostA] exProfilePG (by decide) (by decide)⟩

/-- Claim C6 (amended): with the similarity input for the posting held
fixed, adding to the profile's skills list a skill that exactly matches one
of the posting's required skills (after the source's strip-and-lowercase
normalisation) never decreases the posting's final score: only the skills
term of `final_score` depends on the skills list and it is monotone. -/
theorem c6_skills_monotone_amended (p : UserProfile) (post : Posting) (sim : ℚ)
    (skill : String)
    (h : lowStr (stripStr skill)
        ∈ (splitComma post.required_skills).map (fun t => lowStr (stripStr t))) :
    (scoreRow p post sim).final_score
      ≤ (scoreRow { p with skills := p.skills ++ [skill] } post sim).final_score :=
  scoreRow_skills_mono p post sim skill

/-- Claim C6 witness: adding the exactly matching skill `python` against
`exPostB` with the similarity input fixed at `1/2`. -/
theorem c6_skills_monotone_witness :
    (lowStr (stripStr "python")
        ∈ (splitComma exPostB.required_skills).map (fun t => lowStr (stripStr t)))
    ∧ (scoreRow exProfile exPostB (1/2)).final_score
        ≤ (scoreRow { exProfile with skills := exProfile.skills ++ ["python"] }
            exPostB (1/2)).final_score :=
  ⟨by decide, c6_skills_monotone_amended exProfile exPostB (1/2) "python" (by decide)⟩

set_option maxRecDepth 4000 in
/-- Claim C6 counterexample: through the full pipeline the similarity vector
is recomputed from the changed query text, so adding the exactly matching
skill `python` (already present in the profile) can lower the similarity
term: on `c6Engine` the posting's final score drops from 525 to 515. -/
theorem c6_pipeline_counterexample :
    exProfileMore.skills = exProfile.skills ++ ["python"]
    ∧ (lowStr (stripStr "python")
        ∈ (splitComma exPostB.required_skills).map (fun t => lowStr (stripStr t)))
    ∧ (scoredRows c6Engine exProfile).map (fun r => r.final_score) = [525]
    ∧ (scoredRows c6Engine exProfileMore).map (fun r => r.final_score) = [515]
    ∧ ((515 : ℚ) < 525) := by
  with_unfolding_all decide

/-- Claim C7: the public `match_score` of every returned recommendation is
the candidate's `final_score` clamped to [0, 100] and rounded to one
decimal, hence every returned `match_score` lies in [0, 100] even though
the `final_score` formula can exceed 100. -/
theorem c7_match_score (e : Engine) (p : UserProfile) (r : ScoredRow)
    (h : r ∈ (scoredRows e p).take 5) :
    recommendOk e p = ((scoredRows e p).take 5).map (fun s => createRecommendationObject s p)
    ∧ (createRecommendationObject r p).match_score = round1 (max 0 (min 100 r.final_score))
    ∧ 0 ≤ (createRecommendationObject r p).match_score
    ∧ (createRecommendationObject r p).match_score ≤ 100 :=
  ⟨rfl, matchScore_eq r p, (matchScore_bounds r p).1, (matchScore_bounds r p).2⟩

set_option maxRecDepth 4000 in
/-- Claim C7 witness at the one-row engine `c7Engine` and `exProfile`. -/
theorem c7_match_score_witness :
    scoreRow exProfile exPostB (1/2) ∈ (scoredRows c7Engine exProfile).take 5
    ∧ (recommendOk c7Engine exProfile
        = ((scoredRows c7Engine exProfile).take 5).map
            (fun s => createRecommendationObject s exProfile)
      ∧ (createRecommendationObject (scoreRow exProfile exPostB (1/2)) exProfile).match_score
          = round1 (max 0 (min 100 (scoreRow exProfile exPostB (1/2)).final_score))
      ∧ 0 ≤ (createRecommendationObject (scoreRow exProfile exPostB (1/2)) exProfile).match_score
      ∧ (createRecommendationObject (scoreRow exProfile exPostB (1/2)) exProfile).match_score
          ≤ 100) :=
  ⟨by with_unfolding_all decide,
    c7_match_score c7Engine exProfile (scoreRow exProfile exPostB (1/2))
      (by with_unfolding_all decide)⟩

/-- Claim C8 (amended): when the catalog is not loaded, `get_recommendations`
raises the not-ready error — distinguishable from an ordinary (possibly
empty) result — but the auxiliary queries return plain default values
(`0` and `[]`) instead of reporting unavailability. -/
theorem c8_not_loaded_amended (e : Engine) (p : UserProfile) (h : e.is_loaded = false) :
    getRecommendations e p = Except.error "Data not loaded"
    ∧ get_total_internships e = 0
    ∧ get_available_sectors e = []
    ∧ get_available_locations e = [] := by
  unfold getRecommendations get_total_internships get_available_sectors get_available_locations
  rw [h]
  exact ⟨rfl, rfl, rfl, rfl⟩

/-- Claim C8 witness: the not-loaded engine `c8EngineNL`. -/
theorem c8_not_loaded_witness :
    c8EngineNL.is_loaded = false
    ∧ (getRecommendations c8EngineNL exProfile = Except.error "Data not loaded"
      ∧ get_total_internships c8EngineNL = 0
      ∧ get_available_sectors c8EngineNL = []
      ∧ get_available_locations c8EngineNL = []) :=
  ⟨rfl, c8_not_loaded_amended c8EngineNL exProfile rfl⟩

/-- Claim C8 counterexample: the auxiliary queries of a not-loaded engine
with a non-empty catalog return exactly the ordinary values of a loaded
empty catalog — `0` and `[]` — so they report normal results, not a
service-unavailable condition, contrary to the claim. -/
theorem c8_aux_counterexample :
    c8EngineNL.is_loaded = false
    ∧ c8EngineLE.is_loaded = true
    ∧ c8EngineNL.internships_df ≠ []
    ∧ get_total_internships c8EngineNL = get_total_internships c8EngineLE
    ∧ get_available_sectors c8EngineNL = get_available_sectors c8EngineLE
    ∧ get_available_locations c8EngineNL = get_available_locations c8EngineLE
    ∧ get_total_internships c8EngineNL = 0
    ∧ get_available_sectors c8EngineNL = [] :=
  ⟨rfl, rfl, by decide, rfl, rfl, rfl, rfl, rfl⟩

/-- Claim C9: one request is a pure read of the engine state — the
post-state equals the pre-state — so two successive calls with the same
profile against the unchanged engine return identical output sequences,
item for item. -/
theorem c9_deterministic (e : Engine) (p : UserProfile) :
    (getRecommendationsRun e p).2 = e
    ∧ (getRecommendationsRun ((getRecommendationsRun e p).2) p).1
        = (getRecommendationsRun e p).1 :=
  ⟨rfl, rfl⟩

/-- Claim C10: `_calculate_experience_score` ignores the posting row and
depends only on the profile's experience years (5 at 0 years, 3 at 1-2
years, 2 from 3 years on), so within one request it adds the same constant
to every candidate's final score and the relative order of any two scored
candidates is decided by the remaining terms alone. -/
theorem c10_experience_constant (row1 row2 : Posting) (p : UserProfile)
    (s1 s2 : ℚ) (y : Nat) :
    calcExperienceScore row1 p.experience_years = calcExperienceScore row2 p.experience_years
    ∧ calcExperienceScore row1 0 = 5
    ∧ calcExperienceScore row1 1 = 3
    ∧ calcExperienceScore row1 2 = 3
    ∧ calcExperienceScore row1 (y + 3) = 2
    ∧ (scoreRow p row1 s1).final_score
        = preExpScore p row1 s1 + calcExperienceScore row1 p.experience_years
    ∧ ((scoreRow p row1 s1).final_score ≤ (scoreRow p row2 s2).final_score
        ↔ preExpScore p row1 s1 ≤ preExpScore p row2 s2) := by
  refine ⟨rfl, rfl, rfl, rfl, ?_, rfl, ?_⟩
  · unfold calcExperienceScore
    rw [if_neg (by omega), if_neg (by omega)]
  · rw [scoreRow_final_eq, scoreRow_final_eq]
    have hex : calcExperienceScore row2 p.experience_years
        = calcExperienceScore row1 p.experience_years := rfl
    rw [hex]
    exact add_le_add_iff_right _
